import Mathlib

/-!
Verification of the `movecell` library (`src/lib.rs`).

The library provides `MoveCell<T>`, a single-slot container like
`std::cell::Cell` but for non-`Copy` types, together with a `Borrow`
guard that temporarily moves the value out and swaps it back on drop.

Shallow embedding: `UnsafeCell<T>` is a zero-cost wrapper, so the state
of a `MoveCell<T>` is exactly the value stored in its slot.  Operations
that in Rust mutate through a shared reference are embedded as pure
functions that take the cell state and return the result paired with
the new cell state.  Rust's `Default` trait is modelled by Lean's
`Inhabited` class (`T::default()` becomes `default`).  Type-class
methods of the contained type `T` (`Clone`, `PartialEq`, `Debug`) are
passed as explicit function parameters (`cloneT`, `beq`, `fmtT`).
-/

/-- State of `pub struct MoveCell<T>(UnsafeCell<T>)`: the single storage
slot.  The `UnsafeCell` wrapper has no runtime content of its own. -/
structure MoveCell (T : Type) where
  slot : T
deriving DecidableEq

/-- `MoveCell::new(value)`: create a new cell containing the given value. -/
def MoveCell.new {T : Type} (value : T) : MoveCell T :=
  ⟨value⟩

/-- `MoveCell::into_inner(self)`: consume the cell and return the inner
value (`self.0.into_inner()`). -/
def MoveCell.into_inner {T : Type} (c : MoveCell T) : T :=
  c.slot

/-- `MoveCell::replace(&self, new_value)`: `mem::replace(&mut *self.0.get(),
new_value)` — return the old contents, leaving `new_value` in the slot.
Embedded as (returned value, new cell state). -/
def MoveCell.replace {T : Type} (c : MoveCell T) (new_value : T) : T × MoveCell T :=
  (c.slot, ⟨new_value⟩)

/-- `MoveCell::take(&self)` (for `T: Default`): `self.replace(T::default())`. -/
def MoveCell.take {T : Type} [Inhabited T] (c : MoveCell T) : T × MoveCell T :=
  c.replace default

/-- State of `pub struct Borrow<'a, T>`: the wrapped value `_value`.
The `_cell` back-reference is represented by explicit state threading:
every operation that in Rust follows the back-reference takes the
originating cell's state as an argument. -/
structure Borrow (T : Type) where
  _value : T
deriving DecidableEq

/-- `MoveCell::borrow(&self)`: `Borrow { _cell: self, _value: self.take() }` —
move the contents into a fresh guard, leaving the default in the slot. -/
def MoveCell.borrow {T : Type} [Inhabited T] (c : MoveCell T) : Borrow T × MoveCell T :=
  let (v, c1) := c.take
  (⟨v⟩, c1)

/-- `Drop for Borrow`: `mem::swap(&mut self._value, cell slot)`.  After the
swap the guard is deallocated (its post-swap contents, the old placeholder,
are destroyed), so the observable effect is the new cell state, whose slot
now holds the guard's wrapped value. -/
def Borrow.drop {T : Type} (b : Borrow T) (_c : MoveCell T) : MoveCell T :=
  ⟨b._value⟩

/-- `Borrow::into_inner(self)`: `ptr::read(&self._value)` then `mem::forget(self)` —
return the wrapped value without running the drop glue, so the originating
cell is left untouched (still holding the placeholder). -/
def Borrow.into_inner {T : Type} (b : Borrow T) : T :=
  b._value

/-- `Deref for Borrow`: `&self._value`. -/
def Borrow.deref {T : Type} (b : Borrow T) : T :=
  b._value

/-- An arbitrary mutation of the wrapped value performed through
`DerefMut for Borrow` (`&mut self._value`): the client applies some
transformation `f` in place. -/
def Borrow.modify {T : Type} (f : T → T) (b : Borrow T) : Borrow T :=
  ⟨f b._value⟩

/-- `Clone for MoveCell` (for `T: Default + Clone`):
`MoveCell::new(self.borrow().clone())`.  The guard temporary is created,
the wrapped value cloned through auto-deref (`cloneT` is `T`'s `Clone`
impl), and the temporary is dropped at the end of the expression,
restoring the original contents.  Result: (the new cell, the state of
`self` afterwards). -/
def MoveCell.clone {T : Type} [Inhabited T] (cloneT : T → T) (c : MoveCell T) :
    MoveCell T × MoveCell T :=
  let (g, c1) := c.borrow
  let result := MoveCell.new (cloneT g._value)
  let c2 := g.drop c1
  (result, c2)

/-- Modelled from the spec: `clone_inner` is named in the spec ("returns a
duplicate of the contained value without removing it; implemented via
`peek`") but `src/lib.rs` has no method of that name; its code-level
counterpart is `Clone for MoveCell` followed by `into_inner`.  We model it
exactly that way, from the source `Clone` impl. -/
def MoveCell.clone_inner {T : Type} [Inhabited T] (cloneT : T → T) (c : MoveCell T) :
    T × MoveCell T :=
  let (nc, c2) := c.clone cloneT
  (nc.into_inner, c2)

/-- `PartialEq for MoveCell`, `eq` (for `T: Default + PartialEq`), applied
to two distinct cells: `*self.borrow() == *other.borrow()`.  The two guard
temporaries are created left to right and dropped at the end of the
statement in reverse order (`other`'s first, then `self`'s); with distinct
cells each drop restores its own cell.  `beq` is `T`'s `PartialEq` impl.
Result: (the boolean, self's state afterwards, other's state afterwards). -/
def MoveCell.eq {T : Type} [Inhabited T] (beq : T → T → Bool)
    (c1 c2 : MoveCell T) : Bool × MoveCell T × MoveCell T :=
  let (g1, c1a) := c1.borrow
  let (g2, c2a) := c2.borrow
  let r := beq g1._value g2._value
  let c2b := g2.drop c2a
  let c1b := g1.drop c1a
  (r, c1b, c2b)

/-- `PartialEq for MoveCell`, `eq`, applied with `self` and `other` aliasing
the SAME cell: the second `borrow` starts after the first has already left
the default in the slot, so it extracts the placeholder; the drops then run
in reverse creation order on the one shared slot.  State threaded through
the single cell. -/
def MoveCell.eqSame {T : Type} [Inhabited T] (beq : T → T → Bool)
    (c : MoveCell T) : Bool × MoveCell T :=
  let (g1, c1) := c.borrow
  let (g2, c2) := c1.borrow
  let r := beq g1._value g2._value
  let c3 := g2.drop c2
  let c4 := g1.drop c3
  (r, c4)

/-- `Debug for MoveCell` (for `T: Default + Debug`):
`write!(f, "MoveCell({:?})", *self.borrow())` — format the borrowed value
with `T`'s own `Debug` impl `fmtT` inside a `MoveCell(...)` wrapper; the
guard temporary is dropped at the end of the statement, restoring the
contents.  Result: (the formatted string, the cell state afterwards). -/
def MoveCell.fmt {T : Type} [Inhabited T] (fmtT : T → String) (c : MoveCell T) :
    String × MoveCell T :=
  let (g, c1) := c.borrow
  let s := "MoveCell(" ++ fmtT g._value ++ ")"
  let c2 := g.drop c1
  (s, c2)

/-- Rust's `Debug` impl for `String`/`&str`: the text surrounded by
double quotes (none of the strings in the claims need escapes). -/
def fmtDebugString (s : String) : String :=
  "\"" ++ s ++ "\""

/-- Rust's derived `Debug` impl for `Option<A>`: `None` or `Some(...)`,
delegating to `A`'s impl `fmtA`. -/
def fmtDebugOption {A : Type} (fmtA : A → String) : Option A → String
  | none => "None"
  | some a => "Some(" ++ fmtA a ++ ")"

/-- A Rust scope in which client code runs while a `Borrow` guard obtained
from `c.borrow()` is live.  The client `f` receives the fresh guard and
returns the guard's state at scope exit together with the exit status:
`Except.ok ()` for normal exit, `Except.error e` for unwinding
(panic / early abnormal termination with payload `e`).  Rust runs
`Drop for Borrow` on every exit path, normal or unwinding, so
`Borrow.drop` is applied unconditionally to the exit-time guard. -/
def MoveCell.borrowScope {T E : Type} [Inhabited T] (c : MoveCell T)
    (f : Borrow T → Borrow T × Except E Unit) : Except E Unit × MoveCell T :=
  let (g, c1) := c.borrow
  let (g2, r) := f g
  (r, g2.drop c1)

/-- A Rust scope in which the client consumes the guard with
`Borrow::into_inner` after possibly mutating it (`k`): `mem::forget`
disarms the drop glue, so no swap-back runs and the cell keeps the
placeholder.  Result: (the extracted value, the cell state afterwards). -/
def MoveCell.borrowScopeInto {T : Type} [Inhabited T] (c : MoveCell T)
    (k : Borrow T → Borrow T) : T × MoveCell T :=
  let (g, c1) := c.borrow
  ((k g).into_inner, c1)

/-! Theorems, one per claim. -/

/-- Claim C1: for every cell and every value `b`, `replace(b)` returns the
value previously stored in the cell, and afterwards the cell's slot
holds `b`. -/
theorem replace_returns_old_and_stores_new {T : Type} (c : MoveCell T) (b : T) :
    (c.replace b).1 = c.slot ∧ ((c.replace b).2).slot = b := by
  simp [MoveCell.replace]

/-- Claim C2: for every value `a`, `into_inner (new a) = a` — the
construct-then-consume round trip is the identity. -/
theorem into_inner_new {T : Type} (a : T) :
    MoveCell.into_inner (MoveCell.new a) = a := rfl

/-- Claim C3: for every cell with a defaultable value type, `take()` is
`replace(default)`: it returns the old contents and leaves the default in
the slot; and for optional-typed contents (`Option α`, whose default is
`none`) a first `take()` returns the previous optional value and an
immediate second `take()` returns `none`. -/
theorem take_is_replace_default {T : Type} [Inhabited T] (c : MoveCell T)
    {α : Type} (d : MoveCell (Option α)) :
    c.take = c.replace default ∧
    (c.take).1 = c.slot ∧ ((c.take).2).slot = default ∧
    (d.take).1 = d.slot ∧ (((d.take).2).take).1 = none := by
  refine ⟨rfl, ?_, ?_, ?_, ?_⟩ <;> simp [MoveCell.take, MoveCell.replace, default]

/-- Claim C4: `borrow()` moves the current value into the guard and leaves
the default in the slot; while the guard is live (even after an arbitrary
mutation `f` through `DerefMut`), the cell still holds the default; when
the guard is dropped, the value it wraps at that moment is swapped back
into the cell. -/
theorem borrow_moves_and_drop_restores {T : Type} [Inhabited T]
    (c : MoveCell T) (f : T → T) :
    ((c.borrow).1)._value = c.slot ∧
    ((c.borrow).2).slot = default ∧
    (Borrow.drop (Borrow.modify f (c.borrow).1) (c.borrow).2).slot = f c.slot := by
  simp [MoveCell.borrow, MoveCell.take, MoveCell.replace, Borrow.drop, Borrow.modify]

/-- Claim C5: `into_inner()` on a live guard returns the guard's wrapped
value (the cell's original contents) and, since it disarms the
restore-on-drop teardown, the cell is left holding the placeholder
(default) value, not the value the guard held. -/
theorem borrow_into_inner_disarms {T : Type} [Inhabited T] (c : MoveCell T) :
    Borrow.into_inner (c.borrow).1 = c.slot ∧
    ((c.borrow).2).slot = default := by
  simp [MoveCell.borrow, MoveCell.take, MoveCell.replace, Borrow.into_inner]

/-- Claim C6: for two distinct cells over a type with decidable equality
(modelling `T: PartialEq` by propositional equality), `eq` returns `true`
iff the contained values are equal at the moment of comparison, and both
cells hold their original values again after the comparison completes. -/
theorem eq_distinct_cells {T : Type} [Inhabited T] [DecidableEq T]
    (c1 c2 : MoveCell T) :
    ((MoveCell.eq (fun a b => decide (a = b)) c1 c2).1 = true ↔ c1.slot = c2.slot) ∧
    (MoveCell.eq (fun a b => decide (a = b)) c1 c2).2.1 = c1 ∧
    (MoveCell.eq (fun a b => decide (a = b)) c1 c2).2.2 = c2 := by
  refine ⟨by simp [MoveCell.eq, MoveCell.borrow, MoveCell.take, MoveCell.replace], ?_, ?_⟩ <;>
    simp [MoveCell.eq, MoveCell.borrow, MoveCell.take, MoveCell.replace, Borrow.drop]

/-- Claim C7: with a lawful clone (`cloneT x = x`), cloning through the
source `Clone for MoveCell` impl and consuming the copy — the
spec's `clone_inner` — yields `x`, and the original cell still contains
`x` afterwards: the duplicate is produced without removing the value. -/
theorem clone_inner_duplicates {T : Type} [Inhabited T]
    (cloneT : T → T) (x : T) (h : cloneT x = x) :
    MoveCell.clone_inner cloneT (MoveCell.new x) = (x, MoveCell.new x) ∧
    MoveCell.into_inner (MoveCell.clone cloneT (MoveCell.new x)).1 = x ∧
    (MoveCell.clone cloneT (MoveCell.new x)).2 = MoveCell.new x := by
  simp [MoveCell.clone_inner, MoveCell.clone, MoveCell.borrow, MoveCell.take,
    MoveCell.replace, MoveCell.new, MoveCell.into_inner, Borrow.drop, h]

/-- Witness for C7 at `T = Nat`, `cloneT = id`, `x = 5`. -/
theorem clone_inner_duplicates_witness :
    id (5 : Nat) = 5 ∧
    (MoveCell.clone_inner id (MoveCell.new (5 : Nat)) = (5, MoveCell.new 5) ∧
     MoveCell.into_inner (MoveCell.clone id (MoveCell.new (5 : Nat))).1 = 5 ∧
     (MoveCell.clone id (MoveCell.new (5 : Nat))).2 = MoveCell.new 5) :=
  ⟨rfl, clone_inner_duplicates id 5 rfl⟩

/-- Claim C8, counterexample: in the concrete optional-contents scenario
the first three steps behave as claimed, but debug-formatting the cell
does NOT yield the string "Cell(Some(fifth))" — the source `Debug` impl
writes the type name `MoveCell` and formats the inner string with
quotes — so the claim's conjunction is false. -/
theorem debug_scenario_claim_false :
    ¬ ((MoveCell.take (MoveCell.new (some "fourth"))).1 = some "fourth" ∧
       (MoveCell.take (MoveCell.take (MoveCell.new (some "fourth"))).2).1 = none ∧
       (MoveCell.replace (MoveCell.take (MoveCell.take (MoveCell.new (some "fourth"))).2).2
         (some "fifth")).1 = none ∧
       (MoveCell.fmt (fmtDebugOption fmtDebugString)
         (MoveCell.replace (MoveCell.take (MoveCell.take (MoveCell.new (some "fourth"))).2).2
           (some "fifth")).2).1 = "Cell(Some(fifth))") := by
  decide

/-- Claim C8 as amended: after `c = MoveCell::new(Some("fourth"))`,
`c.take()` returns `Some("fourth")`, a second `c.take()` returns `None`,
`c.replace(Some("fifth"))` returns `None`, and debug-formatting `c` then
yields exactly the string `MoveCell(Some("fifth"))` (with the inner
string quoted by its own `Debug` impl), matching the source's own test. -/
theorem debug_scenario_amended :
    (MoveCell.take (MoveCell.new (some "fourth"))).1 = some "fourth" ∧
    (MoveCell.take (MoveCell.take (MoveCell.new (some "fourth"))).2).1 = none ∧
    (MoveCell.replace (MoveCell.take (MoveCell.take (MoveCell.new (some "fourth"))).2).2
      (some "fifth")).1 = none ∧
    (MoveCell.fmt (fmtDebugOption fmtDebugString)
      (MoveCell.replace (MoveCell.take (MoveCell.take (MoveCell.new (some "fourth"))).2).2
        (some "fifth")).2).1 = "MoveCell(Some(\"fifth\"))" := by
  decide

/-- Claim C9: if client code terminates abnormally while a guard is live,
the teardown still runs and swaps the guard's exit-time wrapped value back
into the cell — the conclusion holds for every exit status, `ok` or
`error`, so the cell is never left holding the placeholder; the one
exception is a scope that disarms the teardown via the guard's
`into_inner`, which returns the wrapped value and leaves the default in
the cell. -/
theorem drop_runs_on_unwind {T E : Type} [Inhabited T] (c : MoveCell T)
    (f : Borrow T → Borrow T × Except E Unit) (k : Borrow T → Borrow T) :
    ((MoveCell.borrowScope c f).2).slot = ((f (c.borrow).1).1)._value ∧
    (MoveCell.borrowScopeInto c k).1 = (k (c.borrow).1)._value ∧
    ((MoveCell.borrowScopeInto c k).2).slot = default := by
  simp [MoveCell.borrowScope, MoveCell.borrowScopeInto, MoveCell.borrow,
    MoveCell.take, MoveCell.replace, Borrow.drop, Borrow.into_inner]

/-- Claim C10: comparing a cell with itself through `eq` (both operands
aliasing the same instance) returns `true` iff the contained value equals
the type's default — the second overlapping borrow extracts the
placeholder — and the cell's original value is restored afterwards. -/
theorem eq_same_cell {T : Type} [Inhabited T] [DecidableEq T] (c : MoveCell T) :
    ((MoveCell.eqSame (fun a b => decide (a = b)) c).1 = true ↔ c.slot = default) ∧
    (MoveCell.eqSame (fun a b => decide (a = b)) c).2 = c := by
  constructor
  · simp [MoveCell.eqSame, MoveCell.borrow, MoveCell.take, MoveCell.replace]
  · simp [MoveCell.eqSame, MoveCell.borrow, MoveCell.take, MoveCell.replace, Borrow.drop]
